import Mathlib

/-!
Verification of the voicemail-detection state machine of this repository
(`agent/tools/voicemail.py`): the keyword-scoring classifier
`detect_voicemail` and the stateful `VoicemailHandler` with its
`process_audio_segment` and `reset` operations.

The Python functions are embedded shallowly:

* strings are Lean `String`s; Python's substring test `pat in s` is
  `substrIn s pat`; `str.lower()` is `lowerStr` (ASCII lowering, which
  agrees with Python on the ASCII keyword lists used here);
  `len(s.split())` is `wordCountStr s` (maximal runs of non-whitespace);

* the confidence arithmetic of `detect_voicemail` — `min(score/3, 1.0)`,
  `* 0.3`, `+ 0.1`, `+ 0.2`, `min(·, 1.0)` — only ever produces exact
  multiples of `1/30`, so it is carried out exactly in integer
  thirtieths (`conf30`); the comparisons against `0.7` and `0.4` become
  `21 ≤ conf30` and `12 ≤ conf30`.  The rational value the source
  computes is `(conf30 tl : ℚ) / 30`, and the theorem
  `conf30_eq_formula` proves that this scaled computation equals the
  literal formula of the source transcribed over `ℚ` (`confFormula`).
  None of the comparisons exercised below sits within floating-point
  rounding error of a threshold, so the exact model agrees with the
  float code on every branch taken;

* `detect_voicemail` returns a formatted English string; its caller
  (`VoicemailHandler.process_audio_segment`) observes exactly two things
  about it: whether it contains "Voicemail detected" (true precisely in
  the `confidence >= threshold` branch) and the integer percentage it
  parses back out (`float(result.split("%")[0].split()[-1]) / 100`,
  i.e. the `:.0%`-rounded confidence over 100).  The embedding returns
  that observable content as a structure `DetectOut`: which branch
  fired, and the confidence in thirtieths.  The handler always calls
  `detect_voicemail` with the default `confidence_threshold=0.7`, so the
  threshold is fixed at `21/30` here.  The handler field
  `detection_confidence` is kept in integer percent (`parsedPct`); the
  float the source stores is that integer over 100 (the `:.0%` format
  rounds to whole percents, and no reachable confidence is exactly
  halfway between two percents, so floor of `x + 1/2` matches Python's
  rounding on every reachable value);

* a Python `transcript` argument that is not a string makes
  `self.transcript_buffer += " " + transcript` raise `TypeError` before
  any field is assigned; the surrounding `except` clause then returns
  `("error", "continue")`.  The embedding makes that path explicit with
  the input type `Fragment`: `Fragment.txt s` is a text fragment and
  `Fragment.malformed` a non-text argument, routed to the translated
  `except` branch with the session unchanged.
-/

/-- Prefix test: `isPrefOf p l` is true when `p` is a prefix of `l`. -/
def isPrefOf : List Char → List Char → Bool
  | [], _ => true
  | _ :: _, [] => false
  | a :: as, b :: bs => a == b && isPrefOf as bs

/-- Substring occurrence over char lists (Python `pat in hay`). -/
def subIn (pat : List Char) : List Char → Bool
  | [] => pat.isEmpty
  | c :: t => isPrefOf pat (c :: t) || subIn pat t

/-- Python `pat in hay` for strings. -/
def substrIn (hay pat : String) : Bool :=
  subIn pat.data hay.data

/-- Python `s.lower()` (ASCII range; the configured phrases are ASCII). -/
def lowerStr (s : String) : String :=
  ⟨s.data.map Char.toLower⟩

/-- Number of maximal non-whitespace runs; `inWord` records whether the scan
is currently inside a run. -/
def wordCountAux : List Char → Bool → Nat
  | [], _ => 0
  | c :: t, inWord =>
    if c.isWhitespace then wordCountAux t false
    else (if inWord then 0 else 1) + wordCountAux t true

/-- Python `len(s.split())`. -/
def wordCountStr (s : String) : Nat :=
  wordCountAux s.data false

/-- The module-level list `VOICEMAIL_KEYWORDS`. -/
def VOICEMAIL_KEYWORDS : List String :=
  ["voicemail",
   "voice mail",
   "message after the beep",
   "leave a message",
   "not available",
   "unavailable",
   "record your message",
   "leave your message",
   "at the tone",
   "after the tone",
   "beep",
   "mailbox",
   "voice mailbox",
   "automated message",
   "press 1",
   "press star",
   "please leave",
   "currently unavailable",
   "cannot take your call",
   "not able to answer"]

/-- The module-level list `HUMAN_GREETING_PATTERNS` (the entry
"how can I help" keeps its capital I exactly as in the source). -/
def HUMAN_GREETING_PATTERNS : List String :=
  ["hello",
   "hi",
   "hey",
   "yes",
   "speaking",
   "this is",
   "how can I help",
   "good morning",
   "good afternoon",
   "good evening"]

/-- Python `voicemail_score`: how many configured keywords occur in the lowered
transcript `tl`. -/
def vmScore (tl : String) : Nat :=
  (VOICEMAIL_KEYWORDS.filter (fun k => substrIn tl k)).length

/-- Python `human_score`: greeting patterns counted only while the lowered buffer is
shorter than 50 characters (`if pattern in transcript_lower and
len(transcript_lower) < 50`). -/
def humanScore (tl : String) : Nat :=
  (HUMAN_GREETING_PATTERNS.filter
    (fun p => substrIn tl p && decide (tl.length < 50))).length

/-- Python `has_instructions = any(word in transcript_lower for word in ["press",
"option", "menu"])`. -/
def hasInstructions (tl : String) : Bool :=
  (["press", "option", "menu"] : List String).any (fun w => substrIn tl w)

/-- The confidence computed by `detect_voicemail`, in exact thirtieths:
`min(score/3, 1.0)` is `min (10 * score) 30`; the `* 0.3` penalty is
`3 * c0 / 10` (exact: `c0` is always a multiple of 10); `+ 0.1` is `+ 3`,
`+ 0.2` is `+ 6`; the final clamp `min(·, 1.0)` is `min · 30`. -/
def conf30 (tl : String) : Nat :=
  let c0 := min (10 * vmScore tl) 30
  let c1 := if 0 < humanScore tl then 3 * c0 / 10 else c0
  let c2 := c1 + (if 20 < wordCountStr tl then 3 else 0)
               + (if hasInstructions tl then 6 else 0)
  min c2 30

/-- The confidence formula exactly as the source writes it, over `ℚ`. -/
def confFormula (tl : String) : ℚ :=
  let c0 : ℚ := min ((vmScore tl : ℚ) / 3) 1
  let c1 : ℚ := if 0 < humanScore tl then c0 * (3 / 10) else c0
  let c2 : ℚ := c1 + (if 20 < wordCountStr tl then (1 : ℚ) / 10 else 0)
                   + (if hasInstructions tl then (2 : ℚ) / 10 else 0)
  min c2 1

/-- Which of the four return strings of `detect_voicemail` was produced:
`noAudio` for the empty transcript, `detected` for "Voicemail detected …",
`possible` for "Possible voicemail system …", `human` for "Appears to be a
human answering …". -/
inductive Verdict where
  | noAudio
  | detected
  | possible
  | human
deriving DecidableEq, Repr

/-- The content of the string `detect_voicemail` returns that its caller
observes: the branch that fired, and the confidence in thirtieths. -/
structure DetectOut where
  verdict : Verdict
  confidence30 : Nat
deriving DecidableEq, Repr

/-- Function `detect_voicemail(transcript)` at the default `confidence_threshold=0.7`.
The empty transcript takes the `if not transcript` early return; otherwise
the confidence is compared to the threshold (`0.7 = 21/30`), then to
`0.4 = 12/30`. -/
def detect_voicemail (transcript : String) : DetectOut :=
  if transcript = "" then ⟨Verdict.noAudio, 0⟩
  else
    let c := conf30 (lowerStr transcript)
    if 21 ≤ c then ⟨Verdict.detected, c⟩
    else if 12 ≤ c then ⟨Verdict.possible, c⟩
    else ⟨Verdict.human, c⟩

/-- An argument passed as the `transcript` parameter of
`process_audio_segment`: either an actual string, or a non-text value (which
makes the string concatenation raise and lands in the `except` clause). -/
inductive Fragment where
  | txt (s : String)
  | malformed
deriving DecidableEq, Repr

/-- The session object built by `VoicemailHandler.__init__`;
`detection_confidence` is kept in integer percent (the source stores that
integer divided by 100). -/
structure VoicemailHandler where
  state : String
  transcript_buffer : String
  detection_confidence : Nat
  message_left : Bool
deriving DecidableEq, Repr

/-- Constructor `VoicemailHandler()`: state "listening", empty buffer, zero confidence,
no message left. -/
def VoicemailHandler.init : VoicemailHandler :=
  ⟨"listening", "", 0, false⟩

/-- The percentage the handler parses back out of the detection string:
`float(result.split("%")[0].split()[-1]) / 100` recovers the `:.0%`-rounded
confidence; for a confidence of `c/30` that percentage is
`round (100 * c / 30) = floor ((20 * c + 3) / 6)`. -/
def parsedPct (c30 : Nat) : Nat :=
  (20 * c30 + 3) / 6

/-- Method `VoicemailHandler.process_audio_segment(transcript)`: appends the
fragment to the buffer, then branches on the current state; returns the new
session together with the `(state, action)` tuple.  A malformed fragment
raises before any field is assigned and the `except` clause returns
`("error", "continue")`. -/
def VoicemailHandler.process_audio_segment (h : VoicemailHandler)
    (frag : Fragment) : VoicemailHandler × String × String :=
  match frag with
  | Fragment.malformed => (h, ("error", "continue"))
  | Fragment.txt t =>
    let h1 : VoicemailHandler :=
      { h with transcript_buffer := h.transcript_buffer ++ " " ++ t }
    if h1.state = "listening" then
      let r := detect_voicemail h1.transcript_buffer
      if r.verdict = Verdict.detected then
        ({ h1 with state := "detected",
                   detection_confidence := parsedPct r.confidence30 },
         ("detected", "wait_for_beep"))
      else if 50 < wordCountStr h1.transcript_buffer then
        ({ h1 with state := "human" }, ("human", "continue_conversation"))
      else
        (h1, (h1.state, "continue"))
    else if h1.state = "detected" then
      if substrIn (lowerStr t) "beep"
          || decide (100 < wordCountStr h1.transcript_buffer) then
        ({ h1 with state := "leaving_message" },
         ("leaving_message", "leave_message"))
      else
        (h1, (h1.state, "continue"))
    else if h1.state = "leaving_message" then
      ({ h1 with state := "completed", message_left := true },
       ("completed", "end_call"))
    else
      (h1, (h1.state, "continue"))

/-- Method `VoicemailHandler.reset()`. -/
def VoicemailHandler.reset (_h : VoicemailHandler) : VoicemailHandler :=
  ⟨"listening", "", 0, false⟩

/-- Feed a list of text fragments to one session, in order. -/
def runFragments (h : VoicemailHandler) (l : List String) : VoicemailHandler :=
  l.foldl (fun acc t => (acc.process_audio_segment (Fragment.txt t)).1) h

/-- One interaction with a session: a `process_audio_segment` call or a
`reset()`. -/
inductive CallOp where
  | seg (f : Fragment)
  | reset
deriving DecidableEq, Repr

/-- Apply one interaction to a session. -/
def applyOp (h : VoicemailHandler) : CallOp → VoicemailHandler
  | CallOp.seg f => (h.process_audio_segment f).1
  | CallOp.reset => h.reset

/-- Apply a sequence of interactions to a session, in order. -/
def runOps (h : VoicemailHandler) : List CallOp → VoicemailHandler
  | [] => h
  | op :: rest => runOps (applyOp h op) rest

/-! ### Helper lemmas -/

theorem wordCountAux_le (l : List Char) (b : Bool) : wordCountAux l b ≤ l.length := by
  induction l generalizing b with
  | nil => simp [wordCountAux]
  | cons c t ih =>
    simp only [wordCountAux, List.length_cons]
    split
    · exact Nat.le_succ_of_le (ih false)
    · have := ih true
      split <;> omega

theorem wordCountStr_le (s : String) : wordCountStr s ≤ s.length :=
  wordCountAux_le s.data false

theorem lowerStr_length (s : String) : (lowerStr s).length = s.length := by
  show (s.data.map Char.toLower).length = s.data.length
  simp

theorem append_space_ne (a b : String) : a ++ " " ++ b ≠ "" := by
  intro hEq
  have h := congrArg String.length hEq
  rw [String.length_append, String.length_append] at h
  have h1 : (" " : String).length = 1 := rfl
  have h0 : ("" : String).length = 0 := rfl
  omega

/-- Every branch of `process_audio_segment` on a text fragment keeps the
buffer it appended at the top. -/
theorem process_txt_buffer (h : VoicemailHandler) (t : String) :
    ((h.process_audio_segment (Fragment.txt t)).1).transcript_buffer
      = h.transcript_buffer ++ " " ++ t := by
  simp only [VoicemailHandler.process_audio_segment]
  repeat' split
  all_goals rfl

/-- The one-step transition relation of the stored state. -/
theorem process_state_step (h : VoicemailHandler) (f : Fragment) :
    ((h.process_audio_segment f).1.state = h.state)
    ∨ (h.state = "listening" ∧ (h.process_audio_segment f).1.state = "detected")
    ∨ (h.state = "listening" ∧ (h.process_audio_segment f).1.state = "human")
    ∨ (h.state = "detected" ∧ (h.process_audio_segment f).1.state = "leaving_message")
    ∨ (h.state = "leaving_message" ∧ (h.process_audio_segment f).1.state = "completed") := by
  cases f with
  | malformed => exact Or.inl rfl
  | txt t =>
    simp only [VoicemailHandler.process_audio_segment]
    split
    · next hL =>
      split
      · exact Or.inr (Or.inl ⟨hL, rfl⟩)
      · split
        · exact Or.inr (Or.inr (Or.inl ⟨hL, rfl⟩))
        · exact Or.inl rfl
    · next hL =>
      split
      · next hD =>
        split
        · exact Or.inr (Or.inr (Or.inr (Or.inl ⟨hD, rfl⟩)))
        · exact Or.inl rfl
      · next hD =>
        split
        · next hM => exact Or.inr (Or.inr (Or.inr (Or.inr ⟨hM, rfl⟩)))
        · exact Or.inl rfl

/-- Arithmetic core of the scaled-integer / rational-formula correspondence. -/
theorem confBridge (s : Nat) (hs : s ≤ 20)
    (p1 p2 p3 : Prop) [Decidable p1] [Decidable p2] [Decidable p3] :
    ((min ((if p1 then 3 * min (10 * s) 30 / 10 else min (10 * s) 30)
        + (if p2 then 3 else 0) + (if p3 then 6 else 0)) 30 : Nat) : ℚ) / 30
    = min ((if p1 then min ((s : ℚ) / 3) 1 * (3 / 10) else min ((s : ℚ) / 3) 1)
        + (if p2 then (1 : ℚ) / 10 else 0) + (if p3 then (2 : ℚ) / 10 else 0)) 1 := by
  by_cases h1 : p1 <;> by_cases h2 : p2 <;> by_cases h3 : p3 <;>
    simp only [h1, h2, h3, if_true, if_false, if_pos, if_neg, not_false_iff] <;>
    interval_cases s <;> norm_num [Nat.min_def, min_def]

/-- The scaled-integer confidence equals the literal rational formula of the
source. -/
theorem conf30_eq_formula (tl : String) :
    (conf30 tl : ℚ) / 30 = confFormula tl := by
  have hs : vmScore tl ≤ 20 := by
    have h := List.length_filter_le (fun k => substrIn tl k) VOICEMAIL_KEYWORDS
    simpa [vmScore] using h
  simpa only [conf30, confFormula] using
    confBridge (vmScore tl) hs (0 < humanScore tl) (20 < wordCountStr tl)
      (hasInstructions tl = true)

/-! ### Claim theorems -/

theorem conf30_saturated (tl : String)
    (h3 : 3 ≤ vmScore tl) (hH : humanScore tl = 0) : conf30 tl = 30 := by
  simp only [conf30, hH, Nat.lt_irrefl, if_false]
  have hc0 : min (10 * vmScore tl) 30 = 30 := Nat.min_eq_right (by omega)
  rw [hc0]
  split <;> split <;> omega

/-- Claim C1: from the listening state, a fragment that makes the appended
buffer contain at least three configured voicemail keywords (and no
human-greeting phrase under the 50-character window) moves the session to
"detected" with a stored confidence of 100 percent, i.e. exactly 1.0, and
returns the ("detected", "wait_for_beep") tuple. -/
theorem claim1_saturated_detection (h : VoicemailHandler) (t : String)
    (hL : h.state = "listening")
    (h3 : 3 ≤ vmScore (lowerStr (h.transcript_buffer ++ " " ++ t)))
    (hH : humanScore (lowerStr (h.transcript_buffer ++ " " ++ t)) = 0) :
    (h.process_audio_segment (Fragment.txt t)).1.state = "detected"
    ∧ (h.process_audio_segment (Fragment.txt t)).1.detection_confidence = 100
    ∧ ((h.process_audio_segment (Fragment.txt t)).1.detection_confidence : ℚ) / 100 = 1
    ∧ (h.process_audio_segment (Fragment.txt t)).2 = ("detected", "wait_for_beep") := by
  have hdet : detect_voicemail (h.transcript_buffer ++ " " ++ t)
      = ⟨Verdict.detected, 30⟩ := by
    unfold detect_voicemail
    rw [if_neg (append_space_ne _ _)]
    simp only [conf30_saturated _ h3 hH]
    norm_num
  have hpct : parsedPct 30 = 100 := by norm_num [parsedPct]
  simp only [VoicemailHandler.process_audio_segment]
  rw [if_pos (show ({ h with transcript_buffer := h.transcript_buffer ++ " " ++ t }
      : VoicemailHandler).state = "listening" from hL)]
  simp only [hdet, if_pos, hpct]
  norm_num

/-- Claim C1 witness: a concrete saturating fragment from the fresh session. -/
theorem claim1_witness :
    VoicemailHandler.init.state = "listening"
    ∧ 3 ≤ vmScore (lowerStr (VoicemailHandler.init.transcript_buffer ++ " "
        ++ "leave a message at the tone beep mailbox"))
    ∧ humanScore (lowerStr (VoicemailHandler.init.transcript_buffer ++ " "
        ++ "leave a message at the tone beep mailbox")) = 0
    ∧ (VoicemailHandler.init.process_audio_segment
        (Fragment.txt "leave a message at the tone beep mailbox")).1.state = "detected"
    ∧ ((VoicemailHandler.init.process_audio_segment
        (Fragment.txt "leave a message at the tone beep mailbox")).1.detection_confidence : ℚ)
        / 100 = 1 :=
  ⟨rfl, by decide, by decide,
   (claim1_saturated_detection VoicemailHandler.init _ rfl (by decide) (by decide)).1,
   (claim1_saturated_detection VoicemailHandler.init _ rfl (by decide) (by decide)).2.2.1⟩

theorem conf30_lt12 (tl : String) (hvm : vmScore tl = 0) : conf30 tl < 12 := by
  simp only [conf30, hvm]
  norm_num
  split <;> split <;> omega

/-- Claim C2 counterexample: the single short human greeting of the claim
leaves the fresh session in state "listening", not "human". -/
theorem claim2_counterexample :
    (VoicemailHandler.init.process_audio_segment
      (Fragment.txt "Hello, this is John speaking.")).1.state = "listening"
    ∧ ¬ ((VoicemailHandler.init.process_audio_segment
      (Fragment.txt "Hello, this is John speaking.")).1.state = "human") := by
  decide

/-- Claim C2 amended: a single call on a short buffer (under 50 characters)
that contains a human-greeting phrase and no voicemail keyword leaves the
session in "listening" with action "continue"; the handler only moves to
"human" once the buffer exceeds 50 words. -/
theorem claim2_short_greeting_stays_listening (h : VoicemailHandler) (t : String)
    (hL : h.state = "listening")
    (hlen : (lowerStr (h.transcript_buffer ++ " " ++ t)).length < 50)
    (hvm : vmScore (lowerStr (h.transcript_buffer ++ " " ++ t)) = 0)
    ( _hhg : 0 < humanScore (lowerStr (h.transcript_buffer ++ " " ++ t))) :
    (h.process_audio_segment (Fragment.txt t)).1.state = "listening"
    ∧ (h.process_audio_segment (Fragment.txt t)).2 = ("listening", "continue") := by
  have hc : conf30 (lowerStr (h.transcript_buffer ++ " " ++ t)) < 12 :=
    conf30_lt12 _ hvm
  have hdet : (detect_voicemail (h.transcript_buffer ++ " " ++ t)).verdict
      = Verdict.human := by
    unfold detect_voicemail
    rw [if_neg (append_space_ne _ _)]
    rw [if_neg (by omega), if_neg (by omega)]
  have hwc : ¬ (50 < wordCountStr (h.transcript_buffer ++ " " ++ t)) := by
    have h1 := wordCountStr_le (h.transcript_buffer ++ " " ++ t)
    have h2 : (h.transcript_buffer ++ " " ++ t).length < 50 := by
      rw [← lowerStr_length]; exact hlen
    omega
  simp only [VoicemailHandler.process_audio_segment]
  rw [if_pos (show ({ h with transcript_buffer := h.transcript_buffer ++ " " ++ t }
      : VoicemailHandler).state = "listening" from hL)]
  simp only [hdet, hwc, if_false, reduceCtorEq]
  exact ⟨hL, by rw [hL]⟩

/-- Claim C2 witness: the concrete greeting of the claim. -/
theorem claim2_witness :
    VoicemailHandler.init.state = "listening"
    ∧ (lowerStr (VoicemailHandler.init.transcript_buffer ++ " "
        ++ "Hello, this is John speaking.")).length < 50
    ∧ vmScore (lowerStr (VoicemailHandler.init.transcript_buffer ++ " "
        ++ "Hello, this is John speaking.")) = 0
    ∧ 0 < humanScore (lowerStr (VoicemailHandler.init.transcript_buffer ++ " "
        ++ "Hello, this is John speaking."))
    ∧ (VoicemailHandler.init.process_audio_segment
        (Fragment.txt "Hello, this is John speaking.")).2
        = ("listening", "continue") :=
  ⟨rfl, by decide, by decide, by decide,
   (claim2_short_greeting_stays_listening VoicemailHandler.init _ rfl
     (by decide) (by decide) (by decide)).2⟩

/-- Claim C3: the stored state only moves forward along
listening → detected → leaving_message → completed, or diverts to "human";
no `process_audio_segment` call ever brings the state back to "listening"
(if the new state is "listening" the old one already was), and `reset()`
is what returns it to "listening". -/
theorem claim3_forward_only :
    (∀ (h : VoicemailHandler) (f : Fragment),
      (((h.process_audio_segment f).1.state = h.state)
        ∨ (h.state = "listening" ∧ (h.process_audio_segment f).1.state = "detected")
        ∨ (h.state = "listening" ∧ (h.process_audio_segment f).1.state = "human")
        ∨ (h.state = "detected" ∧ (h.process_audio_segment f).1.state = "leaving_message")
        ∨ (h.state = "leaving_message" ∧ (h.process_audio_segment f).1.state = "completed"))
      ∧ ((h.process_audio_segment f).1.state = "listening" → h.state = "listening"))
    ∧ (∀ h : VoicemailHandler, (VoicemailHandler.reset h).state = "listening") := by
  constructor
  · intro h f
    refine ⟨process_state_step h f, ?_⟩
    intro hL
    rcases process_state_step h f with e | ⟨_, e⟩ | ⟨_, e⟩ | ⟨_, e⟩ | ⟨_, e⟩
    · rw [← e]; exact hL
    all_goals (rw [e] at hL; exact absurd hL (by decide))
  · intro h
    rfl

/-- Claim C3 witness: concrete instance of the forward-only property. -/
theorem claim3_witness :
    VoicemailHandler.init.state = "listening"
    ∧ (VoicemailHandler.reset VoicemailHandler.init).state = "listening" :=
  ⟨(claim3_forward_only.1 VoicemailHandler.init (Fragment.txt "hello")).2 (by decide),
   claim3_forward_only.2 VoicemailHandler.init⟩

/-- Claim C4: in state "detected", a fragment containing "beep" (or pushing
the buffer past 100 words) moves the session to "leaving_message"; in state
"leaving_message", the next call unconditionally moves to "completed" and
sets `message_left`. -/
theorem claim4_beep_then_completion :
    (∀ (h : VoicemailHandler) (t : String), h.state = "detected" →
      (substrIn (lowerStr t) "beep" = true
        ∨ 100 < wordCountStr (h.transcript_buffer ++ " " ++ t)) →
      ((h.process_audio_segment (Fragment.txt t)).1.state = "leaving_message"
        ∧ (h.process_audio_segment (Fragment.txt t)).2
            = ("leaving_message", "leave_message")))
    ∧ (∀ (h : VoicemailHandler) (t : String), h.state = "leaving_message" →
      ((h.process_audio_segment (Fragment.txt t)).1.state = "completed"
        ∧ (h.process_audio_segment (Fragment.txt t)).1.message_left = true
        ∧ (h.process_audio_segment (Fragment.txt t)).2 = ("completed", "end_call"))) := by
  constructor
  · intro h t hD hcue
    have hcond : (substrIn (lowerStr t) "beep"
        || decide (100 < wordCountStr (h.transcript_buffer ++ " " ++ t))) = true := by
      rcases hcue with hb | hw
      · simp [hb]
      · simp [hw]
    simp only [VoicemailHandler.process_audio_segment]
    rw [if_neg (show ¬ ({ h with transcript_buffer := h.transcript_buffer ++ " " ++ t }
        : VoicemailHandler).state = "listening" by rw [hD]; decide)]
    rw [if_pos (show ({ h with transcript_buffer := h.transcript_buffer ++ " " ++ t }
        : VoicemailHandler).state = "detected" from hD)]
    rw [if_pos hcond]
    exact ⟨rfl, rfl⟩
  · intro h t hM
    simp only [VoicemailHandler.process_audio_segment]
    rw [if_neg (show ¬ ({ h with transcript_buffer := h.transcript_buffer ++ " " ++ t }
        : VoicemailHandler).state = "listening" by rw [hM]; decide)]
    rw [if_neg (show ¬ ({ h with transcript_buffer := h.transcript_buffer ++ " " ++ t }
        : VoicemailHandler).state = "detected" by rw [hM]; decide)]
    rw [if_pos (show ({ h with transcript_buffer := h.transcript_buffer ++ " " ++ t }
        : VoicemailHandler).state = "leaving_message" from hM)]
    exact ⟨rfl, rfl, rfl⟩

/-- Claim C4 witness: concrete beep cue and concrete completion call. -/
theorem claim4_witness :
    (⟨"detected", "press 1 for sales, press 2 for support", 70, false⟩
        : VoicemailHandler).state = "detected"
    ∧ substrIn (lowerStr "the beep") "beep" = true
    ∧ ((⟨"detected", "press 1 for sales, press 2 for support", 70, false⟩
        : VoicemailHandler).process_audio_segment (Fragment.txt "the beep")).1.state
        = "leaving_message"
    ∧ (⟨"leaving_message", "b", 70, false⟩ : VoicemailHandler).state = "leaving_message"
    ∧ ((⟨"leaving_message", "b", 70, false⟩
        : VoicemailHandler).process_audio_segment (Fragment.txt "ok")).1.message_left
        = true :=
  ⟨rfl, by decide,
   (claim4_beep_then_completion.1 _ "the beep" rfl (Or.inl (by decide))).1,
   rfl,
   (claim4_beep_then_completion.2 _ "ok" rfl).2.1⟩

/-- Claim C5 counterexample: in the terminal state "completed" a further call
is not a no-op on the whole session — the fragment is still appended to the
transcript buffer, so the session object changes. -/
theorem claim5_counterexample :
    ((⟨"completed", "", 100, true⟩ : VoicemailHandler).process_audio_segment
        (Fragment.txt "thanks")).1
      ≠ (⟨"completed", "", 100, true⟩ : VoicemailHandler) := by
  decide

/-- Claim C5 amended: in a terminal state ("completed", "human" or "error"),
a call returns the terminal state unchanged with action "continue" and leaves
`state`, `detection_confidence` and `message_left` untouched, but it still
appends the fragment to `transcript_buffer`. -/
theorem claim5_terminal_frame (h : VoicemailHandler) (t : String)
    (hT : h.state = "completed" ∨ h.state = "human" ∨ h.state = "error") :
    h.process_audio_segment (Fragment.txt t)
      = ({ h with transcript_buffer := h.transcript_buffer ++ " " ++ t },
         (h.state, "continue")) := by
  have hne : ∀ s : String, s = "completed" ∨ s = "human" ∨ s = "error" →
      ¬ s = "listening" ∧ ¬ s = "detected" ∧ ¬ s = "leaving_message" := by
    intro s hs
    rcases hs with hs | hs | hs <;> rw [hs] <;> exact ⟨by decide, by decide, by decide⟩
  obtain ⟨h1, h2, h3⟩ := hne h.state hT
  simp only [VoicemailHandler.process_audio_segment]
  rw [if_neg (show ¬ ({ h with transcript_buffer := h.transcript_buffer ++ " " ++ t }
      : VoicemailHandler).state = "listening" from h1)]
  rw [if_neg (show ¬ ({ h with transcript_buffer := h.transcript_buffer ++ " " ++ t }
      : VoicemailHandler).state = "detected" from h2)]
  rw [if_neg (show ¬ ({ h with transcript_buffer := h.transcript_buffer ++ " " ++ t }
      : VoicemailHandler).state = "leaving_message" from h3)]

/-- Claim C5 witness: concrete terminal session. -/
theorem claim5_witness :
    (⟨"completed", "b", 70, true⟩ : VoicemailHandler).state = "completed"
    ∧ (⟨"completed", "b", 70, true⟩ : VoicemailHandler).process_audio_segment
        (Fragment.txt "x")
      = ({ (⟨"completed", "b", 70, true⟩ : VoicemailHandler) with
            transcript_buffer :=
              (⟨"completed", "b", 70, true⟩ : VoicemailHandler).transcript_buffer
                ++ " " ++ "x" },
         ((⟨"completed", "b", 70, true⟩ : VoicemailHandler).state, "continue")) :=
  ⟨rfl, claim5_terminal_frame _ "x" (Or.inl rfl)⟩

theorem runFragments_buffer (l : List String) (h : VoicemailHandler) :
    (runFragments h l).transcript_buffer
      = l.foldl (fun acc t => acc ++ " " ++ t) h.transcript_buffer := by
  induction l generalizing h with
  | nil => rfl
  | cons t rest ih =>
    show (runFragments (h.process_audio_segment (Fragment.txt t)).1 rest).transcript_buffer
      = rest.foldl (fun acc t => acc ++ " " ++ t)
          (h.transcript_buffer ++ " " ++ t)
    rw [ih, process_txt_buffer]

/-- Claim C6 counterexample: after two fragments the buffer is not the plain
concatenation of the fragments — a space is inserted before each one. -/
theorem claim6_counterexample :
    (runFragments VoicemailHandler.init ["good", "day"]).transcript_buffer
      ≠ String.join ["good", "day"] := by
  decide

/-- Claim C6 amended: after N calls on a fresh session the buffer is the
fragments in order, each preceded by a single space (so a leading space and
single-space separators, not the bare concatenation). -/
theorem claim6_buffer_growth (l : List String) :
    (runFragments VoicemailHandler.init l).transcript_buffer
      = l.foldl (fun acc t => acc ++ " " ++ t) "" :=
  runFragments_buffer l VoicemailHandler.init

/-- Claim C7 counterexample: a malformed (non-text) fragment is answered with
the generic exception tuple ("error", "continue") — the same label as any
other internal failure — not with a structured InvalidInput error. -/
theorem claim7_counterexample :
    VoicemailHandler.init.process_audio_segment Fragment.malformed
      = (VoicemailHandler.init, ("error", "continue"))
    ∧ (VoicemailHandler.init.process_audio_segment Fragment.malformed).2.1
      ≠ "InvalidInput" := by
  decide

/-- Claim C7 amended: a malformed fragment does not crash the handler and
leaves the session unchanged, but it is answered by the generic `except`
clause with the tuple ("error", "continue"); no dedicated InvalidInput error
exists in the code. -/
theorem claim7_malformed_rejected (h : VoicemailHandler) :
    h.process_audio_segment Fragment.malformed = (h, ("error", "continue")) :=
  rfl

/-- Claim C8 counterexample: on the exception path the call does not fall
back to the ("human", "continue_conversation") answer — it returns
("error", "continue"). -/
theorem claim8_counterexample :
    (VoicemailHandler.init.process_audio_segment Fragment.malformed).2
      = ("error", "continue")
    ∧ (VoicemailHandler.init.process_audio_segment Fragment.malformed).2
      ≠ ("human", "continue_conversation") := by
  decide

/-- Claim C8 amended: an exception inside `process_audio_segment` is caught
at the boundary (the call returns instead of propagating), the session is
left unchanged and the action is "continue", but the state label returned is
"error", not "human". -/
theorem claim8_exception_caught (h : VoicemailHandler) :
    (h.process_audio_segment Fragment.malformed).1 = h
    ∧ (h.process_audio_segment Fragment.malformed).2.2 = "continue"
    ∧ (h.process_audio_segment Fragment.malformed).2.1 = "error" :=
  ⟨rfl, rfl, rfl⟩

/-- Claim C9: exactly two keyword hits with no other adjustment give a
confidence of 20/30 = 2/3 (≈ 0.667), which lands in the "possible voicemail"
branch — at least 0.4 = 12/30 but below the detection threshold
0.7 = 21/30. -/
theorem claim9_two_hits_boundary (t : String)
    (h2 : vmScore (lowerStr t) = 2)
    (hH : humanScore (lowerStr t) = 0)
    (hw : wordCountStr (lowerStr t) ≤ 20)
    (hi : hasInstructions (lowerStr t) = false) :
    (detect_voicemail t).confidence30 = 20
    ∧ ((detect_voicemail t).confidence30 : ℚ) / 30 = 2 / 3
    ∧ (detect_voicemail t).verdict = Verdict.possible := by
  have hne : ¬ (t = "") := by
    intro he
    rw [he] at h2
    exact absurd h2 (by decide)
  have hnw : ¬ (20 < wordCountStr (lowerStr t)) := by omega
  have hc : conf30 (lowerStr t) = 20 := by
    simp only [conf30, h2, hH, hi, hnw, if_false]
    norm_num
  have hdet : detect_voicemail t = ⟨Verdict.possible, 20⟩ := by
    unfold detect_voicemail
    rw [if_neg hne]
    simp only [hc]
    norm_num
  rw [hdet]
  norm_num

/-- Claim C9 witness: a transcript with exactly the two keyword hits
"leave a message" and "at the tone". -/
theorem claim9_witness :
    vmScore (lowerStr "leave a message at the tone") = 2
    ∧ humanScore (lowerStr "leave a message at the tone") = 0
    ∧ wordCountStr (lowerStr "leave a message at the tone") ≤ 20
    ∧ hasInstructions (lowerStr "leave a message at the tone") = false
    ∧ ((detect_voicemail "leave a message at the tone").confidence30 : ℚ) / 30
        = 2 / 3
    ∧ (detect_voicemail "leave a message at the tone").verdict
        = Verdict.possible :=
  ⟨by decide, by decide, by decide, by decide,
   (claim9_two_hits_boundary _ (by decide) (by decide) (by decide) (by decide)).2.1,
   (claim9_two_hits_boundary _ (by decide) (by decide) (by decide) (by decide)).2.2⟩

theorem runOps_state (ops : List CallOp) (h : VoicemailHandler)
    (hS : h.state = "listening" ∨ h.state = "detected"
      ∨ h.state = "leaving_message" ∨ h.state = "completed"
      ∨ h.state = "human") :
    (runOps h ops).state = "listening" ∨ (runOps h ops).state = "detected"
    ∨ (runOps h ops).state = "leaving_message"
    ∨ (runOps h ops).state = "completed"
    ∨ (runOps h ops).state = "human" := by
  induction ops generalizing h with
  | nil => exact hS
  | cons op rest ih =>
    apply ih
    cases op with
    | reset => exact Or.inl rfl
    | seg f =>
      rcases process_state_step h f with e | ⟨_, e⟩ | ⟨_, e⟩ | ⟨_, e⟩ | ⟨_, e⟩
      · have e2 : (applyOp h (CallOp.seg f)).state = h.state := e
        rw [e2]; exact hS
      · exact Or.inr (Or.inl e)
      · exact Or.inr (Or.inr (Or.inr (Or.inr e)))
      · exact Or.inr (Or.inr (Or.inl e))
      · exact Or.inr (Or.inr (Or.inr (Or.inl e)))

/-- Claim C10: after any sequence of `process_audio_segment` and `reset`
calls on a fresh session, the stored state is one of the five session
labels — it is never "error" (that label only occurs in the tuple returned
on the exception path). -/
theorem claim10_no_error_state (ops : List CallOp) :
    (runOps VoicemailHandler.init ops).state = "listening"
    ∨ (runOps VoicemailHandler.init ops).state = "detected"
    ∨ (runOps VoicemailHandler.init ops).state = "leaving_message"
    ∨ (runOps VoicemailHandler.init ops).state = "completed"
    ∨ (runOps VoicemailHandler.init ops).state = "human" :=
  runOps_state ops VoicemailHandler.init (Or.inl rfl)
